import Mathlib

/-!
Verification development for the jiraF Telegram bot (Go).

The development shallowly embeds the discussion-session core of the
repository: the relational store operations of `internal/db/repository.go`,
the confirm-callback handler of `internal/commands/callbacks.go`, the
`/create_task` orchestration of `internal/commands/create_task.go` together
with its helpers `extractAssignee`, `convertToDueISO` and `nextWeekday`, and
the response parser `parseGPTResponse` of the AI client (`internal/ai`).

Modelling conventions:
* SQL rows become Lean structures; nullable columns become `Option`.
* The store is a pure `DB` value; every repository method becomes a pure
  function on `DB` (Go's `error` return becomes `Except`).  A store that is
  unreachable is not representable; the representable failures (missing row,
  no open session, project unset) are exactly the error returns the claims
  quantify over.
* Timestamps are natural numbers; `started_at` ordering of sessions is
  modelled by list position (rows are appended in insertion order, and the
  SQL `DEFAULT NOW()` makes insertion order coincide with timestamp order).
* External collaborators (the Todoist client, the YandexGPT call and
  `json.Unmarshal`) are universally quantified function parameters.
* Go strings are modelled as Lean `String`/`List Char`.  Byte indices agree
  with character indices at the points where the code slices a string,
  because every slice boundary used by the code lies on a character
  boundary and `strings.ToLower` is length-preserving on the alphabets the
  code searches (ASCII and Russian Cyrillic).
-/

set_option maxHeartbeats 1000000

namespace JiraF

/-- One row of the `sessions` table.  Per the schema migration,
`owner_id` is `BIGINT NOT NULL`, so it is modelled as a plain integer; the
defensive NULL-owner branch of `IsSessionOwner` is unreachable against this
schema and has no counterpart in the model. -/
structure Session where
  id : Int
  chatId : Int
  ownerId : Int
  status : String
deriving Repr, DecidableEq

/-- One row of the `messages` table (`internal/db` model `Message`).
`ts` is the capture timestamp (`TIMESTAMP DEFAULT NOW()`), modelled as a
natural number. -/
structure MessageRow where
  id : Int
  chatId : Int
  sessionId : Option Int
  messageId : Int
  userId : Option Int
  username : Option String
  text : String
  ts : Nat
deriving Repr, DecidableEq

/-- One row of the `draft_tasks` table (`internal/db` model `DraftTask`);
nullable columns are `Option`. -/
structure DraftTaskRow where
  sessionId : Int
  title : Option String
  description : Option String
  dueISO : Option String
  priority : Option Int
  assigneeNote : Option String
deriving Repr, DecidableEq

/-- One row of the `created_tasks` table. -/
structure CreatedTaskRow where
  sessionId : Int
  todoistTaskId : String
  url : String
deriving Repr, DecidableEq

/-- The persistent store: the tables the session core reads and writes.
`nextSessionId` models the `SERIAL` sequence backing `sessions.id`. -/
structure DB where
  chats : List Int
  chatSettings : List (Int × Option String)
  sessions : List Session
  messages : List MessageRow
  drafts : List DraftTaskRow
  createdTasks : List CreatedTaskRow
  nextSessionId : Int
deriving Repr, DecidableEq

/-- The distinguishable error values of `internal/db` (`ErrNoActiveSession`,
`ErrSessionAlreadyExists`, `ErrProjectIDNotSet`) together with the two
wrapped not-found errors returned by `IsSessionOwner` and `GetDraftTask`. -/
inductive DBErr where
  | noActiveSession
  | sessionAlreadyExists
  | projectIDNotSet
  | sessionNotFound
  | draftNotFound
deriving Repr, DecidableEq

/-- `Manager.EnsureChatExists`: `INSERT ... ON CONFLICT DO NOTHING`. -/
def ensureChatExists (db : DB) (chatId : Int) : DB :=
  if chatId ∈ db.chats then db else { db with chats := db.chats ++ [chatId] }

/-- `Manager.HasActiveSession`: `EXISTS (... WHERE chat_id = $1 AND status = 'open')`. -/
def hasActiveSession (db : DB) (chatId : Int) : Bool :=
  db.sessions.any (fun s => decide (s.chatId = chatId) && decide (s.status = "open"))

/-- `Manager.StartSession`: check-then-insert.  If an open session exists the
call fails with `ErrSessionAlreadyExists` and the store is untouched;
otherwise a fresh `'open'` row with the given owner is inserted and its
`RETURNING id` value is handed back. -/
def startSession (db : DB) (chatId ownerId : Int) : Except DBErr Int × DB :=
  if hasActiveSession db chatId then
    (Except.error DBErr.sessionAlreadyExists, db)
  else
    (Except.ok db.nextSessionId,
      { db with
          sessions := db.sessions ++
            [{ id := db.nextSessionId, chatId := chatId, ownerId := ownerId, status := "open" }],
          nextSessionId := db.nextSessionId + 1 })

/-- `Manager.GetActiveSession`: `WHERE chat_id = $1 AND status = 'open'
ORDER BY started_at DESC LIMIT 1`.  Start order is list order, so the most
recently started open session is the last open row. -/
def getActiveSession (db : DB) (chatId : Int) : Except DBErr Session :=
  match (db.sessions.filter
      (fun s => decide (s.chatId = chatId) && decide (s.status = "open"))).getLast? with
  | none => Except.error DBErr.noActiveSession
  | some s => Except.ok s

/-- `Manager.IsSessionOwner`: look the session up by id (no status filter);
missing row is the wrapped `session not found` error; otherwise strict
equality against the stored `owner_id`. -/
def isSessionOwner (db : DB) (sessionId userId : Int) : Except DBErr Bool :=
  match db.sessions.find? (fun s => decide (s.id = sessionId)) with
  | none => Except.error DBErr.sessionNotFound
  | some s => Except.ok (decide (s.ownerId = userId))

/-- `Manager.CloseSession`: resolve the active session of the chat, then
`UPDATE sessions SET status = 'closed' WHERE id = $2`. -/
def closeSession (db : DB) (chatId : Int) : Except DBErr DB :=
  match getActiveSession db chatId with
  | Except.error e => Except.error e
  | Except.ok s =>
    Except.ok { db with
      sessions := db.sessions.map
        (fun t => if t.id = s.id then { t with status := "closed" } else t) }

/-- `Manager.GetTodoistProjectID`: no settings row, a NULL column or an empty
string all surface as `ErrProjectIDNotSet`. -/
def getTodoistProjectID (db : DB) (chatId : Int) : Except DBErr String :=
  match db.chatSettings.find? (fun p => decide (p.1 = chatId)) with
  | none => Except.error DBErr.projectIDNotSet
  | some p =>
    match p.2 with
    | none => Except.error DBErr.projectIDNotSet
    | some s => if s = "" then Except.error DBErr.projectIDNotSet else Except.ok s

/-- Capture-timestamp order on message rows: the `ORDER BY ts ASC` key. -/
def tsLe (a b : MessageRow) : Prop := a.ts ≤ b.ts

instance : DecidableRel tsLe := fun a b => Nat.decLe a.ts b.ts

instance : IsTotal MessageRow tsLe := ⟨fun a b => Nat.le_total a.ts b.ts⟩

instance : IsTrans MessageRow tsLe := ⟨fun _ _ _ h h2 => Nat.le_trans h h2⟩

/-- `Manager.GetSessionMessages`: `WHERE session_id = $1 ORDER BY ts ASC`,
modelled as a sort (by capture timestamp) of the rows attached to the
session. -/
def getSessionMessages (db : DB) (sessionId : Int) : List MessageRow :=
  List.insertionSort tsLe (db.messages.filter (fun m => decide (m.sessionId = some sessionId)))

/-- `Manager.SaveDraftTask`: upsert keyed by `session_id`; empty strings and
non-positive priorities are stored as SQL NULL (the `Valid` flags in the Go
code). -/
def saveDraftTask (db : DB) (sessionId : Int) (title description dueISO : String)
    (priority : Int) (assigneeNote : String) : DB :=
  let row : DraftTaskRow :=
    { sessionId := sessionId,
      title := if title = "" then none else some title,
      description := if description = "" then none else some description,
      dueISO := if dueISO = "" then none else some dueISO,
      priority := if priority > 0 then some priority else none,
      assigneeNote := if assigneeNote = "" then none else some assigneeNote }
  if db.drafts.any (fun r => decide (r.sessionId = sessionId)) then
    { db with drafts := db.drafts.map (fun r => if r.sessionId = sessionId then row else r) }
  else
    { db with drafts := db.drafts ++ [row] }

/-- `Manager.GetDraftTask`: lookup by session id, wrapped not-found error. -/
def getDraftTask (db : DB) (sessionId : Int) : Except DBErr DraftTaskRow :=
  match db.drafts.find? (fun r => decide (r.sessionId = sessionId)) with
  | none => Except.error DBErr.draftNotFound
  | some r => Except.ok r

/-- `Manager.SaveCreatedTask`: plain append-only insert. -/
def saveCreatedTask (db : DB) (sessionId : Int) (todoistTaskId url : String) : DB :=
  { db with createdTasks := db.createdTasks ++
      [{ sessionId := sessionId, todoistTaskId := todoistTaskId, url := url }] }

/-- Decimal value of a digit string (helper for `goAtoi`). -/
def digitsVal (ds : List Char) : Nat :=
  ds.foldl (fun acc c => acc * 10 + (c.toNat - 48)) 0

/-- Go's `strconv.Atoi`: optional sign followed by a non-empty digit string
(`none` is the error return; machine-size overflow is not modelled). -/
def goAtoi (s : String) : Option Int :=
  match s.data with
  | [] => none
  | c :: rest =>
    let signedTail : Bool × List Char :=
      if c = '-' then (true, rest) else if c = '+' then (false, rest) else (false, c :: rest)
    if signedTail.2.isEmpty || !(signedTail.2.all (fun d => d.isDigit)) then none
    else if signedTail.1 then some (-(digitsVal signedTail.2 : Int))
    else some ((digitsVal signedTail.2 : Int))

/-- The fields of `todoist.TaskRequest` that `handleConfirmCallback` fills in
(the remaining fields of the Go struct stay at their zero values). -/
structure TaskRequest where
  content : String
  description : String
  projectId : String
  priority : Int
  dueDate : String
deriving Repr, DecidableEq

/-- The fields of `todoist.TaskResponse` the handler consumes. -/
structure TaskResponse where
  id : String
  url : String
deriving Repr, DecidableEq

/-- The callback acknowledgment texts of `handleConfirmCallback`. -/
def ackVerifyFailed : String := "Error: Failed to verify session ownership"

/-- Denial acknowledgment sent to a non-owner pressing confirm. -/
def ackOnlyOwnerConfirm : String :=
  "Only the user who started this discussion can confirm the task"

/-- Acknowledgment when the draft row cannot be loaded. -/
def ackDraftFailed : String := "Error: Failed to get draft task"

/-- Acknowledgment when the chat's project id cannot be loaded. -/
def ackProjectFailed : String := "Error: Failed to get Todoist project ID"

/-- Acknowledgment when the Todoist `CreateTask` call fails. -/
def ackCreateFailed : String := "Error: Failed to create task"

/-- Acknowledgment on the success path. -/
def ackConfirmSuccess : String := "✅ Отлично! Создаю задачу."

/-- The success chat message with the created-task link
(`fmt.Sprintf` of title and URL). -/
def taskCreatedMessage (title url : String) : String :=
  "✅ **Задача создана**: [" ++ title ++ "](" ++ url ++ ")"

/-- The `todoist.TaskRequest` literal built by `handleConfirmCallback` from
the draft row and the chat's project id; `sql.NullXxx` zero values (`""`,
`0`) stand in for NULL columns, exactly as `task.Title.String` and
`task.Priority.Int32` do in the Go code. -/
def confirmRequest (task : DraftTaskRow) (projectId : String) : TaskRequest :=
  { content := task.title.getD (""),
    description := task.description.getD (""),
    projectId := projectId,
    priority := task.priority.getD 0,
    dueDate := task.dueISO.getD ("") }

/-- Observable outcome of one callback invocation: the `CallbackResponse`
fields the claims refer to, the resulting store, and the trace of Todoist
`CreateTask` invocations made while handling it. -/
structure CallbackResult where
  ack : String
  isOwner : Bool
  responseMessage : Option String
  db : DB
  createTaskCalls : List TaskRequest
deriving Repr, DecidableEq

/-- Go `unicode.ToLower` as used by `strings.ToLower`, restricted to the
alphabets `extractAssignee` searches: ASCII letters and Russian Cyrillic
(both of which Go lowers by a fixed code-point offset, preserving the UTF-8
byte length, so byte positions in the lowered text and the original text
coincide). -/
def goToLower (c : Char) : Char :=
  if 'A' ≤ c ∧ c ≤ 'Z' then Char.ofNat (c.toNat + 32)
  else if c = 'Ё' then 'ё'
  else if 'А' ≤ c ∧ c ≤ 'Я' then Char.ofNat (c.toNat + 32)
  else c

/-- Accumulator-passing worker for `fields`. -/
def fieldsAux : List Char → List Char → List (List Char)
  | [], acc => if acc.isEmpty then [] else [acc.reverse]
  | c :: cs, acc =>
    if c.isWhitespace then
      if acc.isEmpty then fieldsAux cs [] else acc.reverse :: fieldsAux cs []
    else fieldsAux cs (c :: acc)

/-- Go `strings.Fields`: split around runs of whitespace, no empty fields. -/
def fields (s : List Char) : List (List Char) := fieldsAux s []

/-- Go `strings.Index` for the substring search in `extractAssignee`:
position of the first occurrence of `needle` in `hay`, if any. -/
def idxOfSub (hay needle : List Char) : Option Nat :=
  if needle.isPrefixOf hay then some 0
  else
    match hay with
    | [] => none
    | _ :: t => (idxOfSub t needle).map (· + 1)

/-- The fixed marker list of `extractAssignee`, in source order. -/
def assigneePhrases : List (List Char) :=
  ["назначить".data, "ответственный".data, "исполнитель".data, "поручить".data,
   "assign to".data, "responsible".data, "assignee".data]

/-- `strings.HasPrefix(word, "@")` on a field. -/
def startsWithAt (w : List Char) : Bool :=
  match w with
  | [] => false
  | c :: _ => decide (c = '@')

/-- The phrase loop of `extractAssignee`: for each marker in order, find its
first occurrence in the lowered text, take the original-case text after the
occurrence and return its first field; fall through when the marker is
absent or nothing follows it. -/
def scanPhrases : List (List Char) → List Char → List Char → List Char
  | [], _, _ => []
  | p :: ps, lower, text =>
    match idxOfSub lower p with
    | some i =>
      match fields (text.drop (i + p.length)) with
      | w :: _ => w
      | [] => scanPhrases ps lower text
    | none => scanPhrases ps lower text

/-- `CreateTaskCommand.extractAssignee`: first an `@`-mention (the first
whitespace-delimited field starting with `@`, searched only when the text
contains an `@` at all), then the assignment-phrase markers, else empty. -/
def extractAssignee (text : List Char) : List Char :=
  let lowerText := text.map goToLower
  let fromMention : Option (List Char) :=
    if text.contains '@' then (fields text).find? startsWithAt else none
  match fromMention with
  | some w => w
  | none => scanPhrases assigneePhrases lowerText text

/-- Civil date (year, month, day) of a day count relative to 1970-01-01 in
the proleptic Gregorian calendar (the standard days-to-civil algorithm;
Lean's `Int` division floors for positive divisors, which is what the
algorithm needs). -/
def civilFromDays (z : Int) : Int × Int × Int :=
  let days := z + 719468
  let era := days / 146097
  let doe := days - era * 146097
  let yoe := (doe - doe / 1460 + doe / 36524 - doe / 146096) / 365
  let y := yoe + era * 400
  let doy := doe - (365 * yoe + yoe / 4 - yoe / 100)
  let mp := (5 * doy + 2) / 153
  let d := doy - (153 * mp + 2) / 5 + 1
  let m := if mp < 10 then mp + 3 else mp - 9
  (if m ≤ 2 then y + 1 else y, m, d)

/-- Day count relative to 1970-01-01 of a civil date (inverse direction of
`civilFromDays`; used by the display formatter to recover a weekday). -/
def daysFromCivil (y m d : Int) : Int :=
  let yAdj := if m ≤ 2 then y - 1 else y
  let era := yAdj / 400
  let yoe := yAdj - era * 400
  let mp := if m > 2 then m - 3 else m + 9
  let doy := (153 * mp + 2) / 5 + d - 1
  let doe := yoe * 365 + yoe / 4 - yoe / 100 + doy
  era * 146097 + doe - 719468

/-- Zero-padded decimal rendering (the fixed-width fields of Go's
`Format("2006-01-02")`). -/
def padInt (width : Nat) (n : Int) : String :=
  let s := toString n
  if s.length < width then String.mk (List.replicate (width - s.length) '0') ++ s else s

/-- Go `t.Format("2006-01-02")` of the date `z` days after 1970-01-01. -/
def formatISODate (z : Int) : String :=
  match civilFromDays z with
  | (y, m, d) => padInt 4 y ++ "-" ++ padInt 2 m ++ "-" ++ padInt 2 d

/-- Go `time.Weekday` of the date `z` days after 1970-01-01: Sunday is `0`;
1970-01-01 was a Thursday (`4`). -/
def goWeekday (z : Int) : Int := (z + 4) % 7

/-- The `daysUntil` computation of `CreateTaskCommand.nextWeekday`:
`int(weekday - now.Weekday())`, rolled forward a full week when not
strictly positive. -/
def nextWeekdayDelta (z w : Int) : Int :=
  let daysUntil := w - goWeekday z
  if daysUntil ≤ 0 then daysUntil + 7 else daysUntil

/-- `CreateTaskCommand.nextWeekday`: the formatted date of the next
occurrence of weekday `w` strictly after day `z`. -/
def nextWeekday (z w : Int) : String := formatISODate (z + nextWeekdayDelta z w)

/-- `CreateTaskCommand.convertToDueISO`.  `z` is the day count (relative to
1970-01-01) of the current civil date in Europe/Moscow, i.e. of
`time.Now().In(moscowLoc)`; the `LoadLocation`-failure fallback is not
modelled (the IANA zone exists).  The final test mirrors
`strings.HasPrefix(dueStr, "202") && len(dueStr) >= 10`; as in the Go code
both of the last two branches return `dueStr` unchanged. -/
def convertToDueISO (dueStr : String) (z : Int) : String :=
  if dueStr = "" then ""
  else if dueStr = "today" then formatISODate z
  else if dueStr = "tomorrow" then formatISODate (z + 1)
  else if dueStr = "monday" ∨ dueStr = "понедельник" then nextWeekday z 1
  else if dueStr = "tuesday" ∨ dueStr = "вторник" then nextWeekday z 2
  else if dueStr = "wednesday" ∨ dueStr = "среда" then nextWeekday z 3
  else if dueStr = "thursday" ∨ dueStr = "четверг" then nextWeekday z 4
  else if dueStr = "friday" ∨ dueStr = "пятница" then nextWeekday z 5
  else if dueStr = "saturday" ∨ dueStr = "суббота" then nextWeekday z 6
  else if dueStr = "sunday" ∨ dueStr = "воскресенье" then nextWeekday z 0
  else if dueStr.data.take 3 = ['2', '0', '2'] ∧ 10 ≤ dueStr.data.length then dueStr
  else dueStr

/-- Approximation of Go `time.Parse("2006-01-02", ...)` for the display
formatter: four digits, dash, two digits, dash, two digits, with the month
in 1..12 and the day in 1..31 (Go additionally checks per-month day counts;
no claim depends on this helper). -/
def parseISODateStr (s : String) : Option (Int × Int × Int) :=
  match s.data with
  | [y1, y2, y3, y4, h1, m1, m2, h2, d1, d2] =>
    if [y1, y2, y3, y4, m1, m2, d1, d2].all (fun c => c.isDigit) ∧ h1 = '-' ∧ h2 = '-' then
      let y := (digitsVal [y1, y2, y3, y4] : Int)
      let m := (digitsVal [m1, m2] : Int)
      let d := (digitsVal [d1, d2] : Int)
      if 1 ≤ m ∧ m ≤ 12 ∧ 1 ≤ d ∧ d ≤ 31 then some (y, m, d) else none
    else none
  | _ => none

/-- The Russian weekday names of `formatDueDateForDisplay`, indexed by
`time.Weekday` (Sunday first). -/
def ruWeekdays : List String :=
  ["Воскресенье", "Понедельник", "Вторник", "Среда", "Четверг", "Пятница", "Суббота"]

/-- The Russian month names of `formatDueDateForDisplay` (January first). -/
def ruMonths : List String :=
  ["января", "февраля", "марта", "апреля", "мая", "июня",
   "июля", "августа", "сентября", "октября", "ноября", "декабря"]

/-- `CreateTaskCommand.formatDueDateForDisplay`: re-localize an ISO date for
the preview; unparseable input is passed through. -/
def formatDueDateForDisplay (dueISO : String) : String :=
  if dueISO = "" then ""
  else
    match parseISODateStr dueISO with
    | none => dueISO
    | some (y, m, d) =>
      let z := daysFromCivil y m d
      let dayName := ruWeekdays.getD (goWeekday z).toNat ("")
      let monthName := ruMonths.getD (m - 1).toNat ("")
      toString d ++ " " ++ monthName ++ " (" ++ dayName ++ ")"

/-- `ai.AnalyzedTask`.  The Go `Labels []string` slice distinguishes `nil`
from an empty slice, modelled by `Option (List String)`. -/
structure AnalyzedTask where
  title : String
  description : String
  dueDate : String
  priority : Int
  priorityText : String
  labels : Option (List String)
deriving Repr, DecidableEq

/-- The preview text of `CreateTaskCommand.createPreviewMessage`. -/
def createPreviewText (task : AnalyzedTask) (dueISO assigneeNote : String) : String :=
  let base := "📝 *Draft Task Preview*\n\n*Title:* " ++ task.title ++
    "\n\n*Description:* " ++ task.description ++ "\n\n"
  let dueDisplay := formatDueDateForDisplay dueISO
  let withDue := if dueDisplay = "" then base else base ++ "*Due:* " ++ dueDisplay ++ "\n\n"
  let withPrio := withDue ++ "*Priority:* " ++ task.priorityText ++ "\n\n"
  let withAssignee :=
    if assigneeNote = "" then withPrio
    else withPrio ++ "*Assigned to:* " ++ assigneeNote ++ "\n\n"
  withAssignee ++ "Please confirm to create this task in Todoist."

/-- The user-facing rendering of a `db` error (`fmt.Sprintf("%v", err)`). -/
def dbErrText : DBErr → String
  | DBErr.noActiveSession => "no active session found"
  | DBErr.sessionAlreadyExists => "active session already exists for this chat"
  | DBErr.projectIDNotSet => "todoist project ID not set for this chat"
  | DBErr.sessionNotFound => "session not found"
  | DBErr.draftNotFound => "draft task not found"

/-- The per-message line handed to the analysis client:
`fmt.Sprintf("%s, [%s]: %s", username, ts, text)` with `Unknown Author` for
a NULL username.  The Go code renders the timestamp as
`2006-01-02 15:04:05`; the model renders the abstract timestamp in decimal
(the analysis client is universally quantified, so only the shape of the
line matters to any claim). -/
def formatMessageForAI (m : MessageRow) : String :=
  (m.username.getD ("Unknown Author")) ++ ", [" ++ toString m.ts ++ "]: " ++ m.text

/-- The formatted discussion handed to the analysis client: the session's
messages in capture order, skipping empty texts (the extraction loop of
`CreateTaskCommand.Execute`). -/
def discussionTexts (db : DB) (sessionId : Int) : List String :=
  ((getSessionMessages db sessionId).filter (fun m => decide (m.text ≠ ""))).map
    formatMessageForAI

/-- Outcome of one `/create_task` execution: the reply text and the
resulting store. -/
structure ExecResult where
  text : String
  db : DB
deriving Repr, DecidableEq

/-- `CreateTaskCommand.Execute`, with the analysis client as a function
parameter `ai` and `z` the current Moscow civil date for the due-date
normalization.  Mirrors the Go sequence: active-session check, session
load, owner check, message load, empty-discussion check, project check, AI
analysis, assignee extraction, due-date normalization, draft upsert,
preview. -/
def createTaskExecute (db : DB) (chatId senderId : Int)
    (ai : List String → Except String AnalyzedTask) (z : Int) : ExecResult :=
  if ¬ hasActiveSession db chatId then
    { text := "No active discussion. Start with /start_discussion first.", db := db }
  else
    match getActiveSession db chatId with
    | Except.error e => { text := "Error getting session: " ++ dbErrText e, db := db }
    | Except.ok session =>
      if session.ownerId ≠ senderId then
        { text := "Only the user who started this discussion can create a task from it.",
          db := db }
      else
        let messages := getSessionMessages db session.id
        if messages.isEmpty then
          { text := "No messages in discussion to create task from.", db := db }
        else
          match getTodoistProjectID db chatId with
          | Except.error e => { text := "Error getting project: " ++ dbErrText e, db := db }
          | Except.ok _ =>
            let messageTexts := discussionTexts db session.id
            match ai messageTexts with
            | Except.error e => { text := "❌ AI analysis failed: " ++ e, db := db }
            | Except.ok task =>
              let assigneeNote :=
                String.mk (extractAssignee (String.intercalate (" ") messageTexts).data)
              let dueISO := convertToDueISO task.dueDate z
              let db2 := saveDraftTask db session.id task.title task.description dueISO
                task.priority assigneeNote
              { text := createPreviewText task dueISO assigneeNote, db := db2 }

/-- `MessageContent` of the YandexGPT response. -/
structure GPTMessageContent where
  role : String
  text : String
deriving Repr, DecidableEq

/-- `Alternative` of the YandexGPT response. -/
structure GPTAlternative where
  message : GPTMessageContent
  status : String
deriving Repr, DecidableEq

/-- `GPTResult` of the YandexGPT response (only the field the parser reads). -/
structure GPTResult where
  alternatives : List GPTAlternative
deriving Repr, DecidableEq

/-- `YandexGPTResponse`; `Result` is a nullable pointer in Go. -/
structure YandexGPTResponse where
  result : Option GPTResult
deriving Repr, DecidableEq

/-- The opening-brace character (written by code point to keep brace
characters out of string and character literals). -/
def braceOpenChar : Char := Char.ofNat 123

/-- The closing-brace character. -/
def braceCloseChar : Char := Char.ofNat 125

/-- Worker for `idxOfChar`. -/
def idxOfCharAux : List Char → Char → Nat → Int
  | [], _, _ => -1
  | c :: cs, target, acc => if c = target then (acc : Int) else idxOfCharAux cs target (acc + 1)

/-- Go `strings.Index(text, c)` for a single-character needle, with the
`-1` sentinel of the Go API. -/
def idxOfChar (s : List Char) (c : Char) : Int := idxOfCharAux s c 0

/-- Go `strings.LastIndex(text, c)` for a single-character needle. -/
def lastIdxOfChar (s : List Char) (c : Char) : Int :=
  let r := idxOfChar s.reverse c
  if r < 0 then -1 else (s.length : Int) - 1 - r

/-- The `priorityMap` literal of `parseGPTResponse`. -/
def priorityTextMap (p : Int) : Option String :=
  if p = 1 then some ("Normal")
  else if p = 2 then some ("Medium")
  else if p = 3 then some ("High")
  else if p = 4 then some ("Urgent")
  else none

/-- The slice `text[jsonStart : jsonEnd+1]` of `parseGPTResponse` (between
the first opening brace and the last closing brace, inclusive). -/
def extractJSONSlice (text : List Char) : String :=
  String.mk ((text.drop (idxOfChar text braceOpenChar).toNat).take
    ((lastIdxOfChar text braceCloseChar).toNat + 1 - (idxOfChar text braceOpenChar).toNat))

/-- `parseGPTResponse` normalization, step 1: default an empty description
to the placeholder. -/
def fillDescription (t : AnalyzedTask) : AnalyzedTask :=
  if t.description = "" then { t with description := "No description provided" } else t

/-- `parseGPTResponse` normalization, step 2: when the priority text is
missing, take it from the map, or reset unknown priorities to
`1`/`Normal`. -/
def fillPriorityText (t : AnalyzedTask) : AnalyzedTask :=
  if t.priorityText = "" then
    match priorityTextMap t.priority with
    | some txt => { t with priorityText := txt }
    | none => { t with priority := 1, priorityText := "Normal" }
  else t

/-- `parseGPTResponse` normalization, step 3: reset an out-of-range
priority to `1`. -/
def clampPriority (t : AnalyzedTask) : AnalyzedTask :=
  if t.priority < 1 ∨ t.priority > 4 then { t with priority := 1 } else t

/-- `parseGPTResponse` normalization, step 4: replace a nil labels slice by
an empty one. -/
def fillLabels (t : AnalyzedTask) : AnalyzedTask :=
  if t.labels = none then { t with labels := some [] } else t

/-- The post-unmarshal normalization of `parseGPTResponse`: the four
sequential in-place mutations of the Go code. -/
def normalizeTask (task0 : AnalyzedTask) : AnalyzedTask :=
  fillLabels (clampPriority (fillPriorityText (fillDescription task0)))

/-- `AIClient.parseGPTResponse`, with `json.Unmarshal` into `AnalyzedTask`
as the function parameter `unmarshal` (an external library call; its error
return models a JSON that fails to parse).  Mirrors the Go flow: missing
result or empty alternatives, then brace extraction with the `-1`
sentinels, then unmarshalling, then the title guard and the normalization
of description, priority text, priority range and labels. -/
def parseGPTResponse (unmarshal : String → Except String AnalyzedTask)
    (response : YandexGPTResponse) : Except String AnalyzedTask :=
  match response.result with
  | none => Except.error ("no alternatives in response")
  | some result =>
    match result.alternatives with
    | [] => Except.error ("no alternatives in response")
    | alt :: _ =>
      let text := alt.message.text.data
      let jsonStart := idxOfChar text braceOpenChar
      let jsonEnd := lastIdxOfChar text braceCloseChar
      if jsonStart = -1 ∨ jsonEnd = -1 ∨ jsonEnd ≤ jsonStart then
        Except.error ("no valid JSON found in response")
      else
        match unmarshal (extractJSONSlice text) with
        | Except.error e => Except.error ("failed to parse JSON response: " ++ e)
        | Except.ok task0 =>
          if task0.title = "" then Except.error ("task title is required")
          else Except.ok (normalizeTask task0)

/-- `CallbackHandler.handleConfirmCallback`, with the Todoist client as a
function parameter and `chatId` standing for `callback.Message.Chat.ID` and
`fromId` for `callback.From.ID`.  The flow mirrors the Go code: verify
ownership (`strconv.Atoi` + `IsSessionOwner`), then load the draft, load the
project id, call `CreateTask`, persist the created task, close the session
(both of the last two only logged on failure), and answer with the link.
`none` models the literal `return nil` on the (unreachable) second `Atoi`
failure. -/
def handleConfirmCallback (db : DB) (todoist : TaskRequest → Except String TaskResponse)
    (chatId fromId : Int) (sessionIdStr : String) : Option CallbackResult :=
  match goAtoi sessionIdStr with
  | none =>
    some { ack := ackVerifyFailed, isOwner := false, responseMessage := none,
           db := db, createTaskCalls := [] }
  | some sessionId =>
    match isSessionOwner db sessionId fromId with
    | Except.error _ =>
      some { ack := ackVerifyFailed, isOwner := false, responseMessage := none,
             db := db, createTaskCalls := [] }
    | Except.ok false =>
      some { ack := ackOnlyOwnerConfirm, isOwner := false, responseMessage := none,
             db := db, createTaskCalls := [] }
    | Except.ok true =>
      match goAtoi sessionIdStr with
      | none => none
      | some sid =>
        match getDraftTask db sid with
        | Except.error _ =>
          some { ack := ackDraftFailed, isOwner := true, responseMessage := none,
                 db := db, createTaskCalls := [] }
        | Except.ok task =>
          match getTodoistProjectID db chatId with
          | Except.error _ =>
            some { ack := ackProjectFailed, isOwner := true, responseMessage := none,
                   db := db, createTaskCalls := [] }
          | Except.ok projectId =>
            let req : TaskRequest := confirmRequest task projectId
            match todoist req with
            | Except.error _ =>
              some { ack := ackCreateFailed, isOwner := true, responseMessage := none,
                     db := db, createTaskCalls := [req] }
            | Except.ok resp =>
              let db1 := saveCreatedTask db sid resp.id resp.url
              let db2 :=
                match closeSession db1 chatId with
                | Except.ok d => d
                | Except.error _ => db1
              some { ack := ackConfirmSuccess, isOwner := true,
                     responseMessage := some (taskCreatedMessage (task.title.getD ("")) resp.url),
                     db := db2, createTaskCalls := [req] }

/-- Decidable equality for `Except` results (used only to evaluate the
model on concrete inputs in witnesses). -/
instance {ε α : Type} [DecidableEq ε] [DecidableEq α] : DecidableEq (Except ε α) := fun x y =>
  match x, y with
  | Except.ok a, Except.ok b =>
    if h : a = b then isTrue (by rw [h]) else isFalse (fun he => by cases he; exact h rfl)
  | Except.error a, Except.error b =>
    if h : a = b then isTrue (by rw [h]) else isFalse (fun he => by cases he; exact h rfl)
  | Except.ok _, Except.error _ => isFalse (fun he => by cases he)
  | Except.error _, Except.ok _ => isFalse (fun he => by cases he)

/-- Concrete store for the C2 witness: chat `10` with a configured project
and an open session owned by user `5`, but no draft row yet. -/
def c2dbMissingDraft : DB :=
  { chats := [10], chatSettings := [(10, some ("proj"))],
    sessions := [{ id := 1, chatId := 10, ownerId := 5, status := "open" }],
    messages := [], drafts := [], createdTasks := [], nextSessionId := 2 }

/-- Concrete store for the C2 witness: as `c2dbMissingDraft` but with a
draft for session `1`. -/
def c2dbReady : DB :=
  { chats := [10], chatSettings := [(10, some ("proj"))],
    sessions := [{ id := 1, chatId := 10, ownerId := 5, status := "open" }],
    messages := [],
    drafts := [{ sessionId := 1, title := some ("T"), description := some ("D"),
                 dueISO := none, priority := some 2, assigneeNote := none }],
    createdTasks := [], nextSessionId := 2 }

/-- Concrete store for C3: chat `10` with a configured project, a *closed*
session owned by user `5`, and the session's draft still present (the state
left behind when a confirm succeeded but its chat message with the button
is still on screen). -/
def c3dbClosed : DB :=
  { chats := [10], chatSettings := [(10, some ("proj"))],
    sessions := [{ id := 1, chatId := 10, ownerId := 5, status := "closed" }],
    messages := [],
    drafts := [{ sessionId := 1, title := some ("T"), description := some ("D"),
                 dueISO := none, priority := some 2, assigneeNote := none }],
    createdTasks := [{ sessionId := 1, todoistTaskId := "42",
                       url := "https://app.todoist.com/task/42" }],
    nextSessionId := 2 }

/-- The weekday-name cases of `convertToDueISO`, each paired with its Go
`time.Weekday` value (Sunday = 0). -/
def weekdayTokens : List (String × Int) :=
  [("monday", 1), ("понедельник", 1), ("tuesday", 2), ("вторник", 2),
   ("wednesday", 3), ("среда", 3), ("thursday", 4), ("четверг", 4),
   ("friday", 5), ("пятница", 5), ("saturday", 6), ("суббота", 6),
   ("sunday", 0), ("воскресенье", 0)]

/-! ## Theorems -/

/-- C4: `StartSession(chatID, ownerID)` fails with `SessionAlreadyExists`
and performs no insert (the store is returned unchanged) when an open
session exists for the chat; otherwise it inserts exactly one new session —
status `open`, the given owner, the given chat — and returns that session's
identifier. -/
theorem startSession_spec (db : DB) (chatId ownerId : Int) :
    (hasActiveSession db chatId = true →
      startSession db chatId ownerId = (Except.error DBErr.sessionAlreadyExists, db)) ∧
    (hasActiveSession db chatId = false →
      startSession db chatId ownerId =
        (Except.ok db.nextSessionId,
          { db with
              sessions := db.sessions ++
                [{ id := db.nextSessionId, chatId := chatId, ownerId := ownerId,
                   status := "open" }],
              nextSessionId := db.nextSessionId + 1 })) := by
  constructor <;> intro h <;> simp [startSession, h]

/-- Witness for `startSession_spec`: a chat with an open session is refused
with the store unchanged; an empty store gets exactly one new open session
with the requested owner and its id is returned. -/
theorem startSession_spec_witness :
    startSession
      { chats := [10], chatSettings := [], messages := [], drafts := [], createdTasks := [],
        sessions := [{ id := 1, chatId := 10, ownerId := 5, status := "open" }],
        nextSessionId := 2 } 10 6 =
      (Except.error DBErr.sessionAlreadyExists,
        { chats := [10], chatSettings := [], messages := [], drafts := [], createdTasks := [],
          sessions := [{ id := 1, chatId := 10, ownerId := 5, status := "open" }],
          nextSessionId := 2 }) ∧
    startSession
      { chats := [], chatSettings := [], messages := [], drafts := [], createdTasks := [],
        sessions := [], nextSessionId := 1 } 10 5 =
      (Except.ok 1,
        { chats := [], chatSettings := [], messages := [], drafts := [], createdTasks := [],
          sessions := [{ id := 1, chatId := 10, ownerId := 5, status := "open" }],
          nextSessionId := 2 }) :=
  ⟨(startSession_spec _ 10 6).1 (by decide), (startSession_spec _ 10 5).2 (by decide)⟩

/-- C8: `GetSessionMessages(sessionID)` returns exactly the messages
attached to that session (a permutation of the table rows with that
session id, with membership exactly the attached rows), in non-decreasing
capture-timestamp order, and the result is insertion-order independent: any
permutation of the message table yields a permutation of the same result
(same multiset, still sorted by the second conjunct). -/
theorem getSessionMessages_spec (db : DB) (sessionId : Int) :
    (getSessionMessages db sessionId).Perm
        (db.messages.filter (fun m => decide (m.sessionId = some sessionId))) ∧
    List.Sorted tsLe (getSessionMessages db sessionId) ∧
    (∀ m : MessageRow,
      m ∈ getSessionMessages db sessionId ↔ m ∈ db.messages ∧ m.sessionId = some sessionId) ∧
    (∀ db2 : DB, db2.messages.Perm db.messages →
      (getSessionMessages db2 sessionId).Perm (getSessionMessages db sessionId)) := by
  refine ⟨List.perm_insertionSort tsLe _, List.sorted_insertionSort tsLe _, ?_, ?_⟩
  · intro m
    rw [getSessionMessages, (List.perm_insertionSort tsLe _).mem_iff, List.mem_filter]
    simp
  · intro db2 h
    exact ((List.perm_insertionSort tsLe _).trans (h.filter _)).trans
      (List.perm_insertionSort tsLe _).symm

/-- Witness for `getSessionMessages_spec` at a two-row table inserted in
reverse timestamp order, applying also the permutation conjunct to the
store holding the two rows swapped. -/
theorem getSessionMessages_spec_witness :
    (getSessionMessages
      { chats := [10], chatSettings := [], drafts := [], createdTasks := [], sessions := [],
        messages := [{ id := 1, chatId := 10, sessionId := some 1, messageId := 100,
                       userId := some 5, username := some ("ann"), text := "b", ts := 9 },
                     { id := 2, chatId := 10, sessionId := some 1, messageId := 101,
                       userId := some 5, username := some ("ann"), text := "a", ts := 3 }],
        nextSessionId := 2 } 1).map (fun m => m.ts) = [3, 9] ∧
    (getSessionMessages
      { chats := [10], chatSettings := [], drafts := [], createdTasks := [], sessions := [],
        messages := [{ id := 2, chatId := 10, sessionId := some 1, messageId := 101,
                       userId := some 5, username := some ("ann"), text := "a", ts := 3 },
                     { id := 1, chatId := 10, sessionId := some 1, messageId := 100,
                       userId := some 5, username := some ("ann"), text := "b", ts := 9 }],
        nextSessionId := 2 } 1).Perm
      (getSessionMessages
        { chats := [10], chatSettings := [], drafts := [], createdTasks := [], sessions := [],
          messages := [{ id := 1, chatId := 10, sessionId := some 1, messageId := 100,
                         userId := some 5, username := some ("ann"), text := "b", ts := 9 },
                       { id := 2, chatId := 10, sessionId := some 1, messageId := 101,
                         userId := some 5, username := some ("ann"), text := "a", ts := 3 }],
          nextSessionId := 2 } 1) :=
  ⟨by decide, ((getSessionMessages_spec _ 1).2.2.2 _ (by decide))⟩

/-- C1: a confirm callback whose acting user differs from the stored owner
of the referenced session is answered with the denial acknowledgment, makes
no Todoist `CreateTask` invocation, and leaves the store — sessions, drafts,
created tasks and all — exactly as it was. -/
theorem confirm_nonowner_frame (db : DB) (todoist : TaskRequest → Except String TaskResponse)
    (chatId fromId : Int) (sessionIdStr : String) (sid : Int) (s : Session)
    (hparse : goAtoi sessionIdStr = some sid)
    (hfind : db.sessions.find? (fun t => decide (t.id = sid)) = some s)
    (hne : s.ownerId ≠ fromId) :
    handleConfirmCallback db todoist chatId fromId sessionIdStr =
      some { ack := ackOnlyOwnerConfirm, isOwner := false, responseMessage := none,
             db := db, createTaskCalls := [] } := by
  simp [handleConfirmCallback, isSessionOwner, hparse, hfind, hne]

/-- Witness for `confirm_nonowner_frame`: user 7 pressing confirm on the
session owned by user 5 is denied with everything unchanged. -/
theorem confirm_nonowner_frame_witness :
    handleConfirmCallback
      { chats := [10], chatSettings := [(10, some ("proj"))],
        sessions := [{ id := 1, chatId := 10, ownerId := 5, status := "open" }],
        messages := [],
        drafts := [{ sessionId := 1, title := some ("T"), description := some ("D"),
                     dueISO := none, priority := some 2, assigneeNote := none }],
        createdTasks := [], nextSessionId := 2 }
      (fun _ => Except.ok { id := "42", url := "https://app.todoist.com/task/42" })
      10 7 ("1") =
      some { ack := ackOnlyOwnerConfirm, isOwner := false, responseMessage := none,
             db := { chats := [10], chatSettings := [(10, some ("proj"))],
                     sessions := [{ id := 1, chatId := 10, ownerId := 5, status := "open" }],
                     messages := [],
                     drafts := [{ sessionId := 1, title := some ("T"),
                                  description := some ("D"), dueISO := none,
                                  priority := some 2, assigneeNote := none }],
                     createdTasks := [], nextSessionId := 2 },
             createTaskCalls := [] } :=
  confirm_nonowner_frame _ _ 10 7 ("1") 1
    { id := 1, chatId := 10, ownerId := 5, status := "open" }
    (by decide) (by decide) (by decide)

/-- C2: error handling of an owner's confirm callback.  Before the Todoist
call — draft load failure, project-id load failure, or a failing
`CreateTask` — the handler answers with the corresponding error
acknowledgment and the store is unchanged (in particular the session is not
closed, so the user can retry).  Once `CreateTask` succeeds, the handler
answers with the success acknowledgment and the created-task link
unconditionally — whatever happens to the subsequent `SaveCreatedTask` and
`CloseSession` steps (in the model the insert always succeeds and the close
fails exactly when the chat has no open session; the success response is
returned in either case, so a failing close surfaces no user-facing
error). -/
theorem confirm_owner_error_handling (db : DB)
    (todoist : TaskRequest → Except String TaskResponse)
    (chatId fromId : Int) (sessionIdStr : String) (sid : Int) (s : Session)
    (hparse : goAtoi sessionIdStr = some sid)
    (hfind : db.sessions.find? (fun t => decide (t.id = sid)) = some s)
    (howner : s.ownerId = fromId) :
    (∀ e, getDraftTask db sid = Except.error e →
      handleConfirmCallback db todoist chatId fromId sessionIdStr =
        some { ack := ackDraftFailed, isOwner := true, responseMessage := none,
               db := db, createTaskCalls := [] }) ∧
    (∀ task e, getDraftTask db sid = Except.ok task →
      getTodoistProjectID db chatId = Except.error e →
      handleConfirmCallback db todoist chatId fromId sessionIdStr =
        some { ack := ackProjectFailed, isOwner := true, responseMessage := none,
               db := db, createTaskCalls := [] }) ∧
    (∀ task projectId e, getDraftTask db sid = Except.ok task →
      getTodoistProjectID db chatId = Except.ok projectId →
      todoist (confirmRequest task projectId) = Except.error e →
      handleConfirmCallback db todoist chatId fromId sessionIdStr =
        some { ack := ackCreateFailed, isOwner := true, responseMessage := none,
               db := db, createTaskCalls := [confirmRequest task projectId] }) ∧
    (∀ task projectId resp, getDraftTask db sid = Except.ok task →
      getTodoistProjectID db chatId = Except.ok projectId →
      todoist (confirmRequest task projectId) = Except.ok resp →
      handleConfirmCallback db todoist chatId fromId sessionIdStr =
        some { ack := ackConfirmSuccess, isOwner := true,
               responseMessage :=
                 some (taskCreatedMessage (task.title.getD ("")) resp.url),
               db :=
                 match closeSession (saveCreatedTask db sid resp.id resp.url) chatId with
                 | Except.ok d => d
                 | Except.error _ => saveCreatedTask db sid resp.id resp.url,
               createTaskCalls := [confirmRequest task projectId] }) := by
  have hown : isSessionOwner db sid fromId = Except.ok true := by
    simp [isSessionOwner, hfind, howner]
  refine ⟨?_, ?_, ?_, ?_⟩
  · intro e hdraft
    simp [handleConfirmCallback, hparse, hown, hdraft]
  · intro task e hdraft hproj
    simp [handleConfirmCallback, hparse, hown, hdraft, hproj]
  · intro task projectId e hdraft hproj htd
    simp [handleConfirmCallback, hparse, hown, hdraft, hproj, htd]
  · intro task projectId resp hdraft hproj htd
    simp [handleConfirmCallback, hparse, hown, hdraft, hproj, htd]

/-- Witness for `confirm_owner_error_handling`: the owner confirms while
the draft row is missing — the error acknowledgment comes back and the open
session stays open; and on a store with a draft and project where the
Todoist call succeeds, the success response carries the link. -/
theorem confirm_owner_error_handling_witness :
    handleConfirmCallback c2dbMissingDraft
      (fun _ => Except.error ("api down")) 10 5 ("1") =
      some { ack := ackDraftFailed, isOwner := true, responseMessage := none,
             db := c2dbMissingDraft, createTaskCalls := [] } ∧
    handleConfirmCallback c2dbReady
      (fun _ => Except.ok { id := "42", url := "https://app.todoist.com/task/42" })
      10 5 ("1") =
      some { ack := ackConfirmSuccess, isOwner := true,
             responseMessage :=
               some (taskCreatedMessage ("T") ("https://app.todoist.com/task/42")),
             db := { chats := [10], chatSettings := [(10, some ("proj"))],
                     sessions := [{ id := 1, chatId := 10, ownerId := 5, status := "closed" }],
                     messages := [],
                     drafts := [{ sessionId := 1, title := some ("T"),
                                  description := some ("D"), dueISO := none,
                                  priority := some 2, assigneeNote := none }],
                     createdTasks := [{ sessionId := 1, todoistTaskId := "42",
                                        url := "https://app.todoist.com/task/42" }],
                     nextSessionId := 2 },
             createTaskCalls := [{ content := "T", description := "D", projectId := "proj",
                                   priority := 2, dueDate := "" }] } := by
  constructor
  · exact (confirm_owner_error_handling c2dbMissingDraft
      (fun _ => Except.error ("api down")) 10 5 ("1") 1
      { id := 1, chatId := 10, ownerId := 5, status := "open" }
      (by decide) (by decide) (by decide)).1 DBErr.draftNotFound (by decide)
  · have h := (confirm_owner_error_handling c2dbReady
      (fun _ => Except.ok { id := "42", url := "https://app.todoist.com/task/42" })
      10 5 ("1") 1
      { id := 1, chatId := 10, ownerId := 5, status := "open" }
      (by decide) (by decide) (by decide)).2.2.2
      { sessionId := 1, title := some ("T"), description := some ("D"),
        dueISO := none, priority := some 2, assigneeNote := none }
      ("proj") { id := "42", url := "https://app.todoist.com/task/42" }
      (by decide) (by decide) rfl
    rw [h]
    decide

/-- C3 counterexample: on a closed session whose draft and project are
still present, a confirm callback from the owner (user `5`) is *not*
rejected as stale — the handler re-executes the creation flow, invokes the
Todoist client's `CreateTask` exactly once more and reports success.
(`IsSessionOwner` selects the session by id alone, with no status check, so
the closed status never enters the control flow.) -/
theorem confirm_closed_session_counterexample :
    (handleConfirmCallback c3dbClosed
        (fun _ => Except.ok { id := "43", url := "https://app.todoist.com/task/43" })
        10 5 ("1")).map (fun r => (r.ack, r.createTaskCalls.length)) =
      some (ackConfirmSuccess, 1) := by decide

/-- C3 amended: a confirm callback on a closed session is denied only when
it comes from a non-owner (via the ownership check, which ignores status);
from the stored owner the handler does not treat the callback as stale — it
re-executes the creation flow and invokes `CreateTask` again whenever the
draft and project are still loadable, answering with the success
response. -/
theorem confirm_closed_session_amended (db : DB)
    (todoist : TaskRequest → Except String TaskResponse)
    (chatId fromId : Int) (sessionIdStr : String) (sid : Int) (s : Session)
    (hparse : goAtoi sessionIdStr = some sid)
    (hfind : db.sessions.find? (fun t => decide (t.id = sid)) = some s)
    (_hclosed : s.status = "closed") :
    (s.ownerId ≠ fromId →
      handleConfirmCallback db todoist chatId fromId sessionIdStr =
        some { ack := ackOnlyOwnerConfirm, isOwner := false, responseMessage := none,
               db := db, createTaskCalls := [] }) ∧
    (s.ownerId = fromId → ∀ task projectId resp,
      getDraftTask db sid = Except.ok task →
      getTodoistProjectID db chatId = Except.ok projectId →
      todoist (confirmRequest task projectId) = Except.ok resp →
      handleConfirmCallback db todoist chatId fromId sessionIdStr =
        some { ack := ackConfirmSuccess, isOwner := true,
               responseMessage :=
                 some (taskCreatedMessage (task.title.getD ("")) resp.url),
               db :=
                 match closeSession (saveCreatedTask db sid resp.id resp.url) chatId with
                 | Except.ok d => d
                 | Except.error _ => saveCreatedTask db sid resp.id resp.url,
               createTaskCalls := [confirmRequest task projectId] }) := by
  constructor
  · intro hne
    simp [handleConfirmCallback, isSessionOwner, hparse, hfind, hne]
  · intro howner task projectId resp hdraft hproj htd
    have hown : isSessionOwner db sid fromId = Except.ok true := by
      simp [isSessionOwner, hfind, howner]
    simp [handleConfirmCallback, hparse, hown, hdraft, hproj, htd]

/-- Witness for `confirm_closed_session_amended` on the closed-session
store: user `7` is denied; owner `5` gets the task re-created. -/
theorem confirm_closed_session_amended_witness :
    handleConfirmCallback c3dbClosed
        (fun _ => Except.ok { id := "43", url := "https://app.todoist.com/task/43" })
        10 7 ("1") =
      some { ack := ackOnlyOwnerConfirm, isOwner := false, responseMessage := none,
             db := c3dbClosed, createTaskCalls := [] } ∧
    handleConfirmCallback c3dbClosed
        (fun _ => Except.ok { id := "43", url := "https://app.todoist.com/task/43" })
        10 5 ("1") =
      some { ack := ackConfirmSuccess, isOwner := true,
             responseMessage :=
               some (taskCreatedMessage ("T") ("https://app.todoist.com/task/43")),
             db := { chats := [10], chatSettings := [(10, some ("proj"))],
                     sessions := [{ id := 1, chatId := 10, ownerId := 5, status := "closed" }],
                     messages := [],
                     drafts := [{ sessionId := 1, title := some ("T"),
                                  description := some ("D"), dueISO := none,
                                  priority := some 2, assigneeNote := none }],
                     createdTasks := [{ sessionId := 1, todoistTaskId := "42",
                                        url := "https://app.todoist.com/task/42" },
                                      { sessionId := 1, todoistTaskId := "43",
                                        url := "https://app.todoist.com/task/43" }],
                     nextSessionId := 2 },
             createTaskCalls := [{ content := "T", description := "D", projectId := "proj",
                                   priority := 2, dueDate := "" }] } := by
  constructor
  · exact (confirm_closed_session_amended c3dbClosed
      (fun _ => Except.ok { id := "43", url := "https://app.todoist.com/task/43" })
      10 7 ("1") 1 { id := 1, chatId := 10, ownerId := 5, status := "closed" }
      (by decide) (by decide) (by decide)).1 (by decide)
  · have h := (confirm_closed_session_amended c3dbClosed
      (fun _ => Except.ok { id := "43", url := "https://app.todoist.com/task/43" })
      10 5 ("1") 1 { id := 1, chatId := 10, ownerId := 5, status := "closed" }
      (by decide) (by decide) (by decide)).2 (by decide)
      { sessionId := 1, title := some ("T"), description := some ("D"),
        dueISO := none, priority := some 2, assigneeNote := none }
      ("proj") { id := "43", url := "https://app.todoist.com/task/43" }
      (by decide) (by decide) rfl
    rw [h]
    decide

/-- Every priority text in the fixed map is non-empty. -/
theorem priorityTextMap_ne_empty {p : Int} {t : String} (h : priorityTextMap p = some t) :
    t ≠ "" := by
  unfold priorityTextMap at h
  split_ifs at h
  all_goals injection h with h2
  all_goals subst h2
  all_goals decide

/-- `fillPriorityText` only touches the priority fields. -/
theorem fillPriorityText_frame (t : AnalyzedTask) :
    (fillPriorityText t).title = t.title ∧
      (fillPriorityText t).description = t.description ∧
      (fillPriorityText t).labels = t.labels := by
  unfold fillPriorityText
  split
  · rcases hm : priorityTextMap t.priority with _ | txt <;> simp [hm]
  · simp

/-- After `fillPriorityText` the priority text is non-empty. -/
theorem fillPriorityText_ne_empty (t : AnalyzedTask) :
    (fillPriorityText t).priorityText ≠ "" := by
  unfold fillPriorityText
  split
  · rcases hm : priorityTextMap t.priority with _ | txt <;> simp [hm]
    · exact priorityTextMap_ne_empty hm
  · assumption

/-- `clampPriority` only touches the priority field, leaving it in range. -/
theorem clampPriority_spec (t : AnalyzedTask) :
    (clampPriority t).title = t.title ∧
      (clampPriority t).description = t.description ∧
      (clampPriority t).priorityText = t.priorityText ∧
      (clampPriority t).labels = t.labels ∧
      1 ≤ (clampPriority t).priority ∧ (clampPriority t).priority ≤ 4 := by
  unfold clampPriority
  split <;> rename_i h
  · exact ⟨rfl, rfl, rfl, rfl, show (1:Int) ≤ 1 by norm_num, show (1:Int) ≤ 4 by norm_num⟩
  · refine ⟨rfl, rfl, rfl, rfl, by omega, by omega⟩

/-- `fillLabels` only replaces a nil labels slice, making it present. -/
theorem fillLabels_spec (t : AnalyzedTask) :
    (fillLabels t).title = t.title ∧
      (fillLabels t).description = t.description ∧
      (fillLabels t).priorityText = t.priorityText ∧
      (fillLabels t).priority = t.priority ∧
      (fillLabels t).labels.isSome := by
  unfold fillLabels
  split <;> rename_i h
  · exact ⟨rfl, rfl, rfl, rfl, rfl⟩
  · exact ⟨rfl, rfl, rfl, rfl, Option.isSome_iff_ne_none.mpr h⟩

/-- The normalization steps never touch the title. -/
theorem normalizeTask_title (t : AnalyzedTask) : (normalizeTask t).title = t.title := by
  unfold normalizeTask
  rw [(fillLabels_spec _).1, (clampPriority_spec _).1, (fillPriorityText_frame _).1]
  unfold fillDescription
  split <;> rfl

/-- `normalizeTask` establishes the draft invariants whenever the incoming
title is non-empty. -/
theorem normalizeTask_invariants (t : AnalyzedTask) (ht : t.title ≠ "") :
    (normalizeTask t).title ≠ "" ∧ (normalizeTask t).description ≠ "" ∧
      1 ≤ (normalizeTask t).priority ∧ (normalizeTask t).priority ≤ 4 ∧
      (normalizeTask t).priorityText ≠ "" ∧ (normalizeTask t).labels.isSome := by
  have hdesc : (fillDescription t).description ≠ "" := by
    unfold fillDescription
    split <;> simp_all
  refine ⟨by rw [normalizeTask_title]; exact ht, ?_, ?_, ?_, ?_, ?_⟩
  · unfold normalizeTask
    rw [(fillLabels_spec _).2.1, (clampPriority_spec _).2.1, (fillPriorityText_frame _).2.1]
    exact hdesc
  · unfold normalizeTask
    rw [(fillLabels_spec _).2.2.2.1]
    exact (clampPriority_spec _).2.2.2.2.1
  · unfold normalizeTask
    rw [(fillLabels_spec _).2.2.2.1]
    exact (clampPriority_spec _).2.2.2.2.2
  · unfold normalizeTask
    rw [(fillLabels_spec _).2.2.1, (clampPriority_spec _).2.2.1]
    exact fillPriorityText_ne_empty _
  · exact (fillLabels_spec _).2.2.2.2

/-- C9: the parser returns an error — never a task — when the response has
no extractable JSON object (missing result, empty alternatives, or no
brace-delimited slice), when unmarshalling the extracted slice fails, or
when the unmarshalled title is empty; and every successfully returned task
has a non-empty title, so the core never accepts a draft with an empty
title. -/
theorem parseGPTResponse_failure_modes (unmarshal : String → Except String AnalyzedTask)
    (response : YandexGPTResponse) :
    (response.result = none →
      parseGPTResponse unmarshal response = Except.error ("no alternatives in response")) ∧
    (∀ r, response.result = some r → r.alternatives = [] →
      parseGPTResponse unmarshal response = Except.error ("no alternatives in response")) ∧
    (∀ r alt rest, response.result = some r → r.alternatives = alt :: rest →
      (idxOfChar alt.message.text.data braceOpenChar = -1 ∨
        lastIdxOfChar alt.message.text.data braceCloseChar = -1 ∨
        lastIdxOfChar alt.message.text.data braceCloseChar ≤
          idxOfChar alt.message.text.data braceOpenChar) →
      parseGPTResponse unmarshal response = Except.error ("no valid JSON found in response")) ∧
    (∀ r alt rest e, response.result = some r → r.alternatives = alt :: rest →
      unmarshal (extractJSONSlice alt.message.text.data) = Except.error e →
      ¬ (idxOfChar alt.message.text.data braceOpenChar = -1 ∨
          lastIdxOfChar alt.message.text.data braceCloseChar = -1 ∨
          lastIdxOfChar alt.message.text.data braceCloseChar ≤
            idxOfChar alt.message.text.data braceOpenChar) →
      parseGPTResponse unmarshal response =
        Except.error ("failed to parse JSON response: " ++ e)) ∧
    (∀ r alt rest task0, response.result = some r → r.alternatives = alt :: rest →
      unmarshal (extractJSONSlice alt.message.text.data) = Except.ok task0 →
      task0.title = "" →
      ¬ (idxOfChar alt.message.text.data braceOpenChar = -1 ∨
          lastIdxOfChar alt.message.text.data braceCloseChar = -1 ∨
          lastIdxOfChar alt.message.text.data braceCloseChar ≤
            idxOfChar alt.message.text.data braceOpenChar) →
      parseGPTResponse unmarshal response = Except.error ("task title is required")) ∧
    (∀ task, parseGPTResponse unmarshal response = Except.ok task → task.title ≠ "") := by
  refine ⟨?_, ?_, ?_, ?_, ?_, ?_⟩
  · intro h; simp [parseGPTResponse, h]
  · intro r hr halts; simp [parseGPTResponse, hr, halts]
  · intro r alt rest hr halts hbrace
    simp only [parseGPTResponse, hr, halts]
    rw [if_pos hbrace]
  · intro r alt rest e hr halts hu hbrace
    simp only [parseGPTResponse, hr, halts]
    rw [if_neg hbrace, hu]
  · intro r alt rest task0 hr halts hu htitle hbrace
    simp only [parseGPTResponse, hr, halts]
    rw [if_neg hbrace, hu]
    simp [htitle]
  · intro task hok
    unfold parseGPTResponse at hok
    rcases hres : response.result with _ | r
    · rw [hres] at hok; cases hok
    · rw [hres] at hok
      dsimp only at hok
      rcases halts : r.alternatives with _ | ⟨alt, rest⟩
      · rw [halts] at hok; cases hok
      · rw [halts] at hok
        dsimp only at hok
        split at hok
        · cases hok
        · rcases hu : unmarshal (extractJSONSlice alt.message.text.data) with e | task0
          · rw [hu] at hok; cases hok
          · rw [hu] at hok
            dsimp only at hok
            split at hok
            · cases hok
            · rename_i htitle
              cases hok
              rw [normalizeTask_title]
              exact htitle

/-- Witness for `parseGPTResponse_failure_modes`, exercising each failure
mode on a concrete response and oracle (a fixed unmarshal result; the text
`x` followed by a JSON object in braces). -/
theorem parseGPTResponse_failure_modes_witness :
    parseGPTResponse (fun _ => Except.error ("bad json")) { result := none } =
      Except.error ("no alternatives in response") ∧
    parseGPTResponse (fun _ => Except.error ("bad json"))
        { result := some { alternatives := [] } } =
      Except.error ("no alternatives in response") ∧
    parseGPTResponse (fun _ => Except.error ("bad json"))
        { result := some { alternatives :=
            [{ message := { role := "assistant", text := "no json here" }, status := "" }] } } =
      Except.error ("no valid JSON found in response") ∧
    parseGPTResponse (fun _ => Except.error ("bad json"))
        { result := some { alternatives :=
            [{ message :=
                 { role := "assistant",
                   text := String.mk ([braceOpenChar, 'x', braceCloseChar]) },
               status := "" }] } } =
      Except.error ("failed to parse JSON response: bad json") ∧
    parseGPTResponse
        (fun _ => Except.ok { title := "", description := "", dueDate := "",
                              priority := 0, priorityText := "", labels := none })
        { result := some { alternatives :=
            [{ message :=
                 { role := "assistant",
                   text := String.mk ([braceOpenChar, 'x', braceCloseChar]) },
               status := "" }] } } =
      Except.error ("task title is required") ∧
    (parseGPTResponse
        (fun _ => Except.ok { title := "Fix", description := "", dueDate := "",
                              priority := 0, priorityText := "", labels := none })
        { result := some { alternatives :=
            [{ message :=
                 { role := "assistant",
                   text := String.mk ([braceOpenChar, 'x', braceCloseChar]) },
               status := "" }] } } =
      Except.ok { title := "Fix", description := "No description provided", dueDate := "",
                  priority := 1, priorityText := "Normal", labels := some [] } ∧
      ("Fix" : String) ≠ "") := by
  refine ⟨?_, ?_, ?_, ?_, ?_, ?_, ?_⟩
  · exact (parseGPTResponse_failure_modes _ _).1 rfl
  · exact (parseGPTResponse_failure_modes _ _).2.1 _ rfl rfl
  · exact (parseGPTResponse_failure_modes _ _).2.2.1 _ _ _ rfl rfl (by decide)
  · exact (parseGPTResponse_failure_modes _ _).2.2.2.1 _ _ _ _ rfl rfl rfl (by decide)
  · exact (parseGPTResponse_failure_modes _ _).2.2.2.2.1 _ _ _ _ rfl rfl rfl rfl (by decide)
  · decide
  · exact (parseGPTResponse_failure_modes
      (fun _ => Except.ok { title := "Fix", description := "", dueDate := "",
                            priority := 0, priorityText := "", labels := none })
      { result := some { alternatives :=
          [{ message :=
               { role := "assistant",
                 text := String.mk ([braceOpenChar, 'x', braceCloseChar]) },
             status := "" }] } }).2.2.2.2.2
      { title := "Fix", description := "No description provided", dueDate := "",
        priority := 1, priorityText := "Normal", labels := some [] }
      (by decide)

/-- C10: every task the parser returns satisfies the normalization
invariants — non-empty title, non-empty description (the placeholder is
substituted when the model omitted it), priority within `1..4` (anything
else is reset to `1`), non-empty priority text, and a non-nil labels
list. -/
theorem parseGPTResponse_invariants (unmarshal : String → Except String AnalyzedTask)
    (response : YandexGPTResponse) (task : AnalyzedTask)
    (hok : parseGPTResponse unmarshal response = Except.ok task) :
    task.title ≠ "" ∧ task.description ≠ "" ∧ 1 ≤ task.priority ∧ task.priority ≤ 4 ∧
      task.priorityText ≠ "" ∧ task.labels.isSome := by
  unfold parseGPTResponse at hok
  rcases hres : response.result with _ | r
  · rw [hres] at hok; cases hok
  rw [hres] at hok
  dsimp only at hok
  rcases halts : r.alternatives with _ | ⟨alt, rest⟩
  · rw [halts] at hok; cases hok
  rw [halts] at hok
  dsimp only at hok
  split at hok
  · cases hok
  rcases hu : unmarshal (extractJSONSlice alt.message.text.data) with e | task0
  · rw [hu] at hok; cases hok
  rw [hu] at hok
  dsimp only at hok
  split at hok
  · cases hok
  rename_i htitle
  cases hok
  exact normalizeTask_invariants task0 htitle

/-- Witness for `parseGPTResponse_invariants` at a concrete oracle and
response: the returned task (title defaulted fields normalized) satisfies
every invariant. -/
theorem parseGPTResponse_invariants_witness :
    ({ title := "Fix", description := "No description provided", dueDate := "",
       priority := 1, priorityText := "Normal",
       labels := some [] } : AnalyzedTask).title ≠ "" ∧
    ({ title := "Fix", description := "No description provided", dueDate := "",
       priority := 1, priorityText := "Normal",
       labels := some [] } : AnalyzedTask).description ≠ "" ∧
    1 ≤ ({ title := "Fix", description := "No description provided", dueDate := "",
           priority := 1, priorityText := "Normal",
           labels := some [] } : AnalyzedTask).priority ∧
    ({ title := "Fix", description := "No description provided", dueDate := "",
       priority := 1, priorityText := "Normal",
       labels := some [] } : AnalyzedTask).priority ≤ 4 ∧
    ({ title := "Fix", description := "No description provided", dueDate := "",
       priority := 1, priorityText := "Normal",
       labels := some [] } : AnalyzedTask).priorityText ≠ "" ∧
    ({ title := "Fix", description := "No description provided", dueDate := "",
       priority := 1, priorityText := "Normal",
       labels := some [] } : AnalyzedTask).labels.isSome :=
  parseGPTResponse_invariants
    (fun _ => Except.ok { title := "Fix", description := "", dueDate := "",
                          priority := 0, priorityText := "", labels := none })
    { result := some { alternatives :=
        [{ message :=
             { role := "assistant",
               text := String.mk ([braceOpenChar, 'x', braceCloseChar]) },
           status := "" }] } }
    { title := "Fix", description := "No description provided", dueDate := "",
      priority := 1, priorityText := "Normal", labels := some [] }
    (by decide)

/-- The `daysUntil` arithmetic of `nextWeekday` picks the unique strictly
positive offset of at most a week that lands on the requested weekday, and
rolls a full week when today already is that weekday: next-occurrence
semantics. -/
theorem nextWeekdayDelta_spec (z w : Int) (hw0 : 0 ≤ w) (hw7 : w < 7) :
    1 ≤ nextWeekdayDelta z w ∧ nextWeekdayDelta z w ≤ 7 ∧
      goWeekday (z + nextWeekdayDelta z w) = w ∧
      (goWeekday z = w → nextWeekdayDelta z w = 7) ∧
      (∀ e : Int, 1 ≤ e → e < nextWeekdayDelta z w → goWeekday (z + e) ≠ w) := by
  unfold nextWeekdayDelta goWeekday
  dsimp only
  split <;> rename_i h
  · exact ⟨by omega, by omega, by omega, by omega, fun e h1 h2 => by omega⟩
  · exact ⟨by omega, by omega, by omega, by omega, fun e h1 h2 => by omega⟩

/-- C6: `convertToDueISO` maps the empty string to itself, `today` to the
current Moscow civil date in `YYYY-MM-DD` form, `tomorrow` to the date one
day later, every English and Russian weekday name to the strictly-future
next occurrence of that weekday (exactly seven days ahead when today is
that weekday — deltas in `1..7`, landing on the right weekday, with no
earlier day qualifying), and passes any ISO-looking string (leading `202`,
length at least ten) through unchanged — all uniformly in the invocation
date `z`. -/
theorem convertToDueISO_spec (z : Int) :
    convertToDueISO ("") z = "" ∧
    convertToDueISO ("today") z = formatISODate z ∧
    convertToDueISO ("tomorrow") z = formatISODate (z + 1) ∧
    (∀ p : String × Int, p ∈ weekdayTokens →
      convertToDueISO p.1 z = formatISODate (z + nextWeekdayDelta z p.2) ∧
      1 ≤ nextWeekdayDelta z p.2 ∧ nextWeekdayDelta z p.2 ≤ 7 ∧
      goWeekday (z + nextWeekdayDelta z p.2) = p.2 ∧
      (goWeekday z = p.2 → nextWeekdayDelta z p.2 = 7) ∧
      (∀ e : Int, 1 ≤ e → e < nextWeekdayDelta z p.2 → goWeekday (z + e) ≠ p.2)) ∧
    (∀ s : String, s.data.take 3 = ['2', '0', '2'] → 10 ≤ s.data.length →
      convertToDueISO s z = s) := by
  refine ⟨rfl, rfl, rfl, ?_, ?_⟩
  · intro p hp
    fin_cases hp <;>
      exact ⟨rfl, nextWeekdayDelta_spec z _ (by norm_num) (by norm_num)⟩
  · intro s htake hlen
    have h0 : ¬ (s = "") := by rintro rfl; exact absurd htake (by decide)
    have h1 : ¬ (s = "today") := by rintro rfl; exact absurd htake (by decide)
    have h2 : ¬ (s = "tomorrow") := by rintro rfl; exact absurd htake (by decide)
    have h3 : ¬ (s = "monday" ∨ s = "понедельник") := by
      rintro (rfl | rfl) <;> exact absurd htake (by decide)
    have h4 : ¬ (s = "tuesday" ∨ s = "вторник") := by
      rintro (rfl | rfl) <;> exact absurd htake (by decide)
    have h5 : ¬ (s = "wednesday" ∨ s = "среда") := by
      rintro (rfl | rfl) <;> exact absurd htake (by decide)
    have h6 : ¬ (s = "thursday" ∨ s = "четверг") := by
      rintro (rfl | rfl) <;> exact absurd htake (by decide)
    have h7 : ¬ (s = "friday" ∨ s = "пятница") := by
      rintro (rfl | rfl) <;> exact absurd htake (by decide)
    have h8 : ¬ (s = "saturday" ∨ s = "суббота") := by
      rintro (rfl | rfl) <;> exact absurd htake (by decide)
    have h9 : ¬ (s = "sunday" ∨ s = "воскресенье") := by
      rintro (rfl | rfl) <;> exact absurd htake (by decide)
    unfold convertToDueISO
    rw [if_neg h0, if_neg h1, if_neg h2, if_neg h3, if_neg h4, if_neg h5, if_neg h6,
      if_neg h7, if_neg h8, if_neg h9]
    split <;> rfl

/-- Witness for `convertToDueISO_spec` on 2026-10-11 (a Sunday, day 20737
after the epoch): `sunday` rolls a full week ahead and the ISO string
`2025-12-31` passes through. -/
theorem convertToDueISO_spec_witness :
    convertToDueISO ("sunday") 20737 = formatISODate (20737 + nextWeekdayDelta 20737 0) ∧
    nextWeekdayDelta 20737 0 = 7 ∧
    convertToDueISO ("2025-12-31") 20737 = "2025-12-31" := by
  have h4 := (convertToDueISO_spec 20737).2.2.2.1 ("sunday", 0) (by decide)
  have h5 := (convertToDueISO_spec 20737).2.2.2.2 ("2025-12-31") (by decide) (by decide)
  exact ⟨h4.1, h4.2.2.2.2.1 (by decide), h5⟩

/-- Every character of every field produced by `fieldsAux` comes from the
remaining input or the accumulator. -/
theorem fieldsAux_chars (s : List Char) : ∀ (acc w : List Char), w ∈ fieldsAux s acc →
    ∀ c ∈ w, c ∈ s ∨ c ∈ acc := by
  induction s with
  | nil =>
    intro acc w hw c hc
    unfold fieldsAux at hw
    split at hw
    · simp at hw
    · simp only [List.mem_singleton] at hw
      subst hw
      exact Or.inr (List.mem_reverse.mp hc)
  | cons c0 cs ih =>
    intro acc w hw c hc
    unfold fieldsAux at hw
    split at hw
    · split at hw
      · rcases ih [] w hw c hc with h | h
        · exact Or.inl (List.mem_cons_of_mem _ h)
        · simp at h
      · rcases List.mem_cons.mp hw with rfl | hw2
        · exact Or.inr (List.mem_reverse.mp hc)
        · rcases ih [] w hw2 c hc with h | h
          · exact Or.inl (List.mem_cons_of_mem _ h)
          · simp at h
    · rcases ih (c0 :: acc) w hw c hc with h | h
      · exact Or.inl (List.mem_cons_of_mem _ h)
      · rcases List.mem_cons.mp h with rfl | h2
        · exact Or.inl (List.mem_cons_self _ _)
        · exact Or.inr h2

/-- A field of the input contains only characters of the input. -/
theorem fields_chars {text w : List Char} (hw : w ∈ fields text) {c : Char} (hc : c ∈ w) :
    c ∈ text := by
  rcases fieldsAux_chars text [] w hw c hc with h | h
  · exact h
  · simp at h

/-- When no marker occurs in the lowered text the phrase scan is empty. -/
theorem scanPhrases_none (ps : List (List Char)) (lower text : List Char)
    (h : ∀ p ∈ ps, idxOfSub lower p = none) : scanPhrases ps lower text = [] := by
  induction ps with
  | nil => rfl
  | cons q qs ih =>
    unfold scanPhrases
    rw [h q (List.mem_cons_self _ _)]
    exact ih (fun p hp => h p (List.mem_cons_of_mem _ hp))

/-- The phrase scan returns the first field after the first occurrence of
the first marker (in list order) that occurs in the lowered text. -/
theorem scanPhrases_found (ps : List (List Char)) (lower text p : List Char) (i : Nat)
    (w : List Char) (ws : List (List Char))
    (hfind : ps.find? (fun q => (idxOfSub lower q).isSome) = some p)
    (hidx : idxOfSub lower p = some i)
    (hfields : fields (text.drop (i + p.length)) = w :: ws) :
    scanPhrases ps lower text = w := by
  induction ps with
  | nil => simp [List.find?] at hfind
  | cons q qs ih =>
    rcases hq : idxOfSub lower q with _ | j
    · rw [List.find?_cons_of_neg _ (by simp [hq])] at hfind
      unfold scanPhrases
      rw [hq]
      exact ih hfind
    · rw [List.find?_cons_of_pos _ (by simp [hq])] at hfind
      cases hfind
      rw [hq] at hidx
      cases hidx
      unfold scanPhrases
      rw [hq]
      dsimp only
      rw [hfields]

/-- C7: `extractAssignee` returns the first whitespace-delimited token
starting with `@` when one exists; otherwise, when some assignment-phrase
marker occurs in the lowercased text, it returns the original-case token
immediately following the first occurrence of the first such marker (in
the fixed marker order of the source); otherwise it returns the empty
string.  The two example inputs of the claim are evaluated concretely. -/
theorem extractAssignee_spec :
    (∀ text w, (fields text).find? startsWithAt = some w → extractAssignee text = w) ∧
    extractAssignee (("Please @ivan handle this").data) = ("@ivan").data ∧
    extractAssignee (("назначить Ивану эту задачу").data) = ("Ивану").data ∧
    (∀ text p i w ws,
      (fields text).find? startsWithAt = none →
      assigneePhrases.find? (fun q => (idxOfSub (text.map goToLower) q).isSome) = some p →
      idxOfSub (text.map goToLower) p = some i →
      fields (text.drop (i + p.length)) = w :: ws →
      extractAssignee text = w) ∧
    (∀ text, (fields text).find? startsWithAt = none →
      (∀ p ∈ assigneePhrases, idxOfSub (text.map goToLower) p = none) →
      extractAssignee text = []) := by
  refine ⟨?_, by decide, by decide, ?_, ?_⟩
  · intro text w hfind
    have hmem : w ∈ fields text := List.mem_of_find?_eq_some hfind
    have hpw : startsWithAt w = true := List.find?_some hfind
    obtain ⟨c, cs, rfl⟩ : ∃ c cs, w = c :: cs := by
      cases w with
      | nil => simp [startsWithAt] at hpw
      | cons c cs => exact ⟨c, cs, rfl⟩
    have hc : c = '@' := by
      unfold startsWithAt at hpw
      exact of_decide_eq_true hpw
    subst hc
    have hat : '@' ∈ text := fields_chars hmem (List.mem_cons_self _ _)
    have hcontains : text.contains '@' = true := List.elem_eq_true_of_mem hat
    unfold extractAssignee
    rw [if_pos hcontains, hfind]
  · intro text p i w ws hfind hphrase hidx hfields
    unfold extractAssignee
    have hnone : (if text.contains '@' then (fields text).find? startsWithAt else none) =
        (none : Option (List Char)) := by
      split
      · exact hfind
      · rfl
    rw [hnone]
    exact scanPhrases_found _ _ _ _ _ _ _ hphrase hidx hfields
  · intro text hfind hnone
    unfold extractAssignee
    have hfm : (if text.contains '@' then (fields text).find? startsWithAt else none) =
        (none : Option (List Char)) := by
      split
      · exact hfind
      · rfl
    rw [hfm]
    exact scanPhrases_none _ _ _ hnone

/-- Witness for `extractAssignee_spec`, instantiating the `@`-token rule,
the marker rule (the marker `исполнитель` with the following token kept in
its original case) and the no-marker rule on concrete inputs. -/
theorem extractAssignee_spec_witness :
    extractAssignee (("ping @Bob now").data) = ("@Bob").data ∧
    extractAssignee (("Исполнитель Петя сказал да").data) = ("Петя").data ∧
    extractAssignee (("just a note").data) = [] := by
  refine ⟨?_, ?_, ?_⟩
  · exact extractAssignee_spec.1 (("ping @Bob now").data) (("@Bob").data) (by decide)
  · exact extractAssignee_spec.2.2.2.1 (("Исполнитель Петя сказал да").data)
      (("исполнитель").data) 0 (("Петя").data) [("сказал").data, ("да").data]
      (by decide) (by decide) (by decide) (by decide)
  · exact extractAssignee_spec.2.2.2.2 (("just a note").data) (by decide) (by decide)

/-- C5: `CreateTaskFromDiscussion` checks its preconditions in source
order — no active session, non-owner requester, empty discussion, no
project id — and on any failure (including an analysis-client failure)
replies with the corresponding user-facing message leaving the store
untouched; in particular a session with zero messages fails with the
empty-discussion message and writes no draft even if later preconditions
would also fail, and the store changes only when the analysis call
succeeded, in which case exactly the draft upsert is performed. -/
theorem createTask_preconditions (db : DB) (chatId senderId : Int)
    (ai : List String → Except String AnalyzedTask) (z : Int) :
    (hasActiveSession db chatId = false →
      createTaskExecute db chatId senderId ai z =
        { text := "No active discussion. Start with /start_discussion first.", db := db }) ∧
    (∀ s, hasActiveSession db chatId = true → getActiveSession db chatId = Except.ok s →
      s.ownerId ≠ senderId →
      createTaskExecute db chatId senderId ai z =
        { text := "Only the user who started this discussion can create a task from it.",
          db := db }) ∧
    (∀ s, hasActiveSession db chatId = true → getActiveSession db chatId = Except.ok s →
      s.ownerId = senderId → getSessionMessages db s.id = [] →
      createTaskExecute db chatId senderId ai z =
        { text := "No messages in discussion to create task from.", db := db }) ∧
    (∀ s e, hasActiveSession db chatId = true → getActiveSession db chatId = Except.ok s →
      s.ownerId = senderId → getSessionMessages db s.id ≠ [] →
      getTodoistProjectID db chatId = Except.error e →
      createTaskExecute db chatId senderId ai z =
        { text := "Error getting project: " ++ dbErrText e, db := db }) ∧
    (∀ s pid e, hasActiveSession db chatId = true → getActiveSession db chatId = Except.ok s →
      s.ownerId = senderId → getSessionMessages db s.id ≠ [] →
      getTodoistProjectID db chatId = Except.ok pid →
      ai (discussionTexts db s.id) = Except.error e →
      createTaskExecute db chatId senderId ai z =
        { text := "❌ AI analysis failed: " ++ e, db := db }) ∧
    (∀ s pid task, hasActiveSession db chatId = true → getActiveSession db chatId = Except.ok s →
      s.ownerId = senderId → getSessionMessages db s.id ≠ [] →
      getTodoistProjectID db chatId = Except.ok pid →
      ai (discussionTexts db s.id) = Except.ok task →
      createTaskExecute db chatId senderId ai z =
        { text := createPreviewText task (convertToDueISO task.dueDate z)
            (String.mk (extractAssignee
              (String.intercalate (" ") (discussionTexts db s.id)).data)),
          db := saveDraftTask db s.id task.title task.description
            (convertToDueISO task.dueDate z) task.priority
            (String.mk (extractAssignee
              (String.intercalate (" ") (discussionTexts db s.id)).data)) }) ∧
    ((createTaskExecute db chatId senderId ai z).db ≠ db →
      ∃ s task, getActiveSession db chatId = Except.ok s ∧
        ai (discussionTexts db s.id) = Except.ok task ∧
        (createTaskExecute db chatId senderId ai z).db =
          saveDraftTask db s.id task.title task.description
            (convertToDueISO task.dueDate z) task.priority
            (String.mk (extractAssignee
              (String.intercalate (" ") (discussionTexts db s.id)).data))) := by
  refine ⟨?_, ?_, ?_, ?_, ?_, ?_, ?_⟩
  · intro h
    simp [createTaskExecute, h]
  · intro s hhas hget hne
    simp [createTaskExecute, hhas, hget, hne]
  · intro s hhas hget howner hmsgs
    simp [createTaskExecute, hhas, hget, howner, hmsgs]
  · intro s e hhas hget howner hmsgs hproj
    rcases hm : getSessionMessages db s.id with _ | ⟨m, ms⟩
    · exact absurd hm hmsgs
    · simp [createTaskExecute, hhas, hget, howner, hm, hproj, discussionTexts]
  · intro s pid e hhas hget howner hmsgs hproj hai
    rcases hm : getSessionMessages db s.id with _ | ⟨m, ms⟩
    · exact absurd hm hmsgs
    · rw [discussionTexts, hm] at hai
      simp only [ne_eq, decide_not] at hai
      simp [createTaskExecute, hhas, hget, howner, hm, hproj, discussionTexts, hai]
  · intro s pid task hhas hget howner hmsgs hproj hai
    rcases hm : getSessionMessages db s.id with _ | ⟨m, ms⟩
    · exact absurd hm hmsgs
    · rw [discussionTexts, hm] at hai
      simp only [ne_eq, decide_not] at hai
      simp [createTaskExecute, hhas, hget, howner, hm, hproj, discussionTexts, hai]
  · intro hch
    rcases hhas : hasActiveSession db chatId with _ | _
    · simp [createTaskExecute, hhas] at hch
    · rcases hget : getActiveSession db chatId with e | s
      · simp [createTaskExecute, hhas, hget] at hch
      · by_cases hown : s.ownerId = senderId
        · rcases hm : getSessionMessages db s.id with _ | ⟨m, ms⟩
          · simp [createTaskExecute, hhas, hget, hown, hm] at hch
          · rcases hproj : getTodoistProjectID db chatId with e | pid
            · simp [createTaskExecute, hhas, hget, hown, hm, hproj] at hch
            · rcases hai : ai (discussionTexts db s.id) with e | task
              · have hai2 := hai
                rw [discussionTexts, hm] at hai2
                simp only [ne_eq, decide_not] at hai2
                simp [createTaskExecute, hhas, hget, hown, hm, hproj, discussionTexts,
                  hai2] at hch
              · have hai2 := hai
                rw [discussionTexts, hm] at hai2
                simp only [ne_eq, decide_not] at hai2
                refine ⟨s, task, rfl, hai, ?_⟩
                simp [createTaskExecute, hhas, hget, hown, hm, hproj, discussionTexts, hai2]
        · simp [createTaskExecute, hhas, hget, hown] at hch

/-- Witness for `createTask_preconditions`: on a store whose open session
(owner `5`) has zero messages, the owner's `/create_task` fails with the
empty-discussion message and the store — in particular its empty draft
table — is unchanged, even though the analysis oracle would succeed. -/
theorem createTask_preconditions_witness :
    createTaskExecute
      { chats := [10], chatSettings := [(10, some ("proj"))],
        sessions := [{ id := 1, chatId := 10, ownerId := 5, status := "open" }],
        messages := [], drafts := [], createdTasks := [], nextSessionId := 2 }
      10 5
      (fun _ => Except.ok { title := "T", description := "D", dueDate := "",
                            priority := 1, priorityText := "Normal", labels := some [] })
      0 =
      { text := "No messages in discussion to create task from.",
        db := { chats := [10], chatSettings := [(10, some ("proj"))],
                sessions := [{ id := 1, chatId := 10, ownerId := 5, status := "open" }],
                messages := [], drafts := [], createdTasks := [], nextSessionId := 2 } } :=
  (createTask_preconditions
    { chats := [10], chatSettings := [(10, some ("proj"))],
      sessions := [{ id := 1, chatId := 10, ownerId := 5, status := "open" }],
      messages := [], drafts := [], createdTasks := [], nextSessionId := 2 }
    10 5
    (fun _ => Except.ok { title := "T", description := "D", dueDate := "",
                          priority := 1, priorityText := "Normal", labels := some [] })
    0).2.2.1
    { id := 1, chatId := 10, ownerId := 5, status := "open" }
    (by decide) (by decide) (by decide) (by decide)

end JiraF
